import Mathlib

/-!
Shallow embedding of the go-loggedio library: a proxy that wraps a
stream-like object and reports read, write, error and close events
through four callbacks.

Modelling conventions:
  * A byte is a `Nat` (values below 256 where it matters).
  * A Go `error` value is `Option GoError` (`none` = nil).
  * A Go panic (the failed interface conversion `x.(io.Reader)` etc.)
    is the `Except.error` branch of `Except GoPanic _`, a failure class
    distinct from a returned I/O error.
  * Side effects of callbacks and of the wrapped target are traces:
    every operation returns, next to its Go return values, the list of
    emissions (`List Λ`) produced during the call, in order.  A callback
    is a function returning the emissions it produces; the wrapped
    target's operations likewise return their emissions, so a proxy can
    itself be wrapped as the target of another proxy.
  * `io.Reader.Read` mutates the caller's buffer, so the embedded read
    operation returns the post-call buffer contents next to `(n, err)`.
-/

namespace Loggedio

/-- A Go `error` value (the proxy treats errors as opaque pass-through
values, so an abstract carrier suffices; we use `String`). -/
abbrev GoError := String

/-- An opaque `time.Time` argument for the deadline operations. -/
abbrev Time := Int

/-- An opaque `net.Addr` value. -/
abbrev Addr := String

/-- A Go runtime panic raised by a failed interface conversion such as
`proxiedObject.(io.Reader)`; carries the name of the wanted interface. -/
inductive GoPanic where
  | interfaceConversion (iface : String)
deriving DecidableEq

/-- The `net.Conn`-specific operations of a target (beyond
read/write/close): addresses and deadlines.  Each operation returns its
Go results plus the emissions it produced, inside `Except GoPanic` so
that a proxy wrapping another proxy propagates the inner panic. -/
structure ConnOps (Λ : Type) where
  localAddr : Unit → Except GoPanic (Addr × List Λ)
  remoteAddr : Unit → Except GoPanic (Addr × List Λ)
  setDeadline : Time → Except GoPanic (Option GoError × List Λ)
  setReadDeadline : Time → Except GoPanic (Option GoError × List Λ)
  setWriteDeadline : Time → Except GoPanic (Option GoError × List Λ)

/-- The wrapped object (`proxiedObject interface\x7b\x7d` in the source):
a bundle of optional capabilities.  A `none` field means the object does
not implement the corresponding interface, so the interface conversion
at the top of the proxy method panics.  `read` takes the caller's buffer
contents and returns `(n, post-call buffer, err)` with emissions;
`write` takes the data and returns `(n, err)` with emissions. -/
structure Target (Λ : Type) where
  read? : Option (List Nat → Except GoPanic ((Nat × List Nat × Option GoError) × List Λ))
  write? : Option (List Nat → Except GoPanic ((Nat × Option GoError) × List Λ))
  close? : Option (Unit → Except GoPanic (Option GoError × List Λ))
  conn? : Option (ConnOps Λ)

/-- The proxy struct from `src/unnamed/part_001` (fields in source
order): four report callbacks plus the proxied object.  The unused
`location` field of the source struct is kept for fidelity. -/
structure LoggedIOProxy (Λ : Type) where
  reportReadEvent : List Nat → List Λ
  reportWriteEvent : List Nat → List Λ
  reportCloseEvent : Unit → List Λ
  reportErrorEvent : String → GoError → List Λ
  proxiedObject : Target Λ
  location : String

variable {Λ : Type}

/-- Definition `Generic` from the source: build a proxy from a target and four raw
callbacks.  No capability of the target is examined. -/
def Generic (proxiedObject : Target Λ)
    (reportReadEvent reportWriteEvent : List Nat → List Λ)
    (reportErrorEvent : String → GoError → List Λ)
    (reportCloseEvent : Unit → List Λ) : LoggedIOProxy Λ :=
  { reportReadEvent := reportReadEvent
    reportWriteEvent := reportWriteEvent
    reportCloseEvent := reportCloseEvent
    reportErrorEvent := reportErrorEvent
    proxiedObject := proxiedObject
    location := "" }

/-- Definition `LoggedIOProxy.Read` from the source: cast to `io.Reader` (panic if
unsupported), forward, report `b[:n]` when `n > 0`, report the error
with location `"Read()"` when non-nil, return `(n, err)` unchanged. -/
def LoggedIOProxy.Read (this : LoggedIOProxy Λ) (b : List Nat) :
    Except GoPanic ((Nat × List Nat × Option GoError) × List Λ) :=
  match this.proxiedObject.read? with
  | none => Except.error (GoPanic.interfaceConversion "io.Reader")
  | some reader =>
    match reader b with
    | Except.error p => Except.error p
    | Except.ok ((n, b2, err), tlog) =>
      let rlog := if n > 0 then this.reportReadEvent (b2.take n) else []
      let elog := match err with
        | some e => this.reportErrorEvent "Read()" e
        | none => []
      Except.ok ((n, b2, err), tlog ++ rlog ++ elog)

/-- Definition `LoggedIOProxy.Write` from the source: cast to `io.Writer` (panic if
unsupported), forward, report `b[:n]` when `n > 0`, report the error
with location `"Write()"` when non-nil, return `(n, err)` unchanged. -/
def LoggedIOProxy.Write (this : LoggedIOProxy Λ) (b : List Nat) :
    Except GoPanic ((Nat × Option GoError) × List Λ) :=
  match this.proxiedObject.write? with
  | none => Except.error (GoPanic.interfaceConversion "io.Writer")
  | some writer =>
    match writer b with
    | Except.error p => Except.error p
    | Except.ok ((n, err), tlog) =>
      let wlog := if n > 0 then this.reportWriteEvent (b.take n) else []
      let elog := match err with
        | some e => this.reportErrorEvent "Write()" e
        | none => []
      Except.ok ((n, err), tlog ++ wlog ++ elog)

/-- Definition `LoggedIOProxy.Close` from the source: cast to `io.Closer` (panic if
unsupported), forward, unconditionally report the close event, then
report the error with location `"Close()"` when non-nil, return the
error unchanged. -/
def LoggedIOProxy.Close (this : LoggedIOProxy Λ) :
    Except GoPanic (Option GoError × List Λ) :=
  match this.proxiedObject.close? with
  | none => Except.error (GoPanic.interfaceConversion "io.Closer")
  | some closer =>
    match closer () with
    | Except.error p => Except.error p
    | Except.ok (err, tlog) =>
      let clog := this.reportCloseEvent ()
      let elog := match err with
        | some e => this.reportErrorEvent "Close()" e
        | none => []
      Except.ok (err, tlog ++ clog ++ elog)

/-- Definition `LoggedIOProxy.LocalAddr` from the source: cast to `net.Conn` (panic
if unsupported), forward; no reporting. -/
def LoggedIOProxy.LocalAddr (this : LoggedIOProxy Λ) :
    Except GoPanic (Addr × List Λ) :=
  match this.proxiedObject.conn? with
  | none => Except.error (GoPanic.interfaceConversion "net.Conn")
  | some conn => conn.localAddr ()

/-- Definition `LoggedIOProxy.RemoteAddr` from the source: cast to `net.Conn`
(panic if unsupported), forward; no reporting. -/
def LoggedIOProxy.RemoteAddr (this : LoggedIOProxy Λ) :
    Except GoPanic (Addr × List Λ) :=
  match this.proxiedObject.conn? with
  | none => Except.error (GoPanic.interfaceConversion "net.Conn")
  | some conn => conn.remoteAddr ()

/-- Definition `LoggedIOProxy.SetDeadline` from the source: cast to `net.Conn`
(panic if unsupported), forward, report the error with location
`"SetDeadline()"` when non-nil, return the error unchanged. -/
def LoggedIOProxy.SetDeadline (this : LoggedIOProxy Λ) (t : Time) :
    Except GoPanic (Option GoError × List Λ) :=
  match this.proxiedObject.conn? with
  | none => Except.error (GoPanic.interfaceConversion "net.Conn")
  | some conn =>
    match conn.setDeadline t with
    | Except.error p => Except.error p
    | Except.ok (err, tlog) =>
      let elog := match err with
        | some e => this.reportErrorEvent "SetDeadline()" e
        | none => []
      Except.ok (err, tlog ++ elog)

/-- Definition `LoggedIOProxy.SetReadDeadline` from the source: as `SetDeadline`
with location `"SetReadDeadline()"`. -/
def LoggedIOProxy.SetReadDeadline (this : LoggedIOProxy Λ) (t : Time) :
    Except GoPanic (Option GoError × List Λ) :=
  match this.proxiedObject.conn? with
  | none => Except.error (GoPanic.interfaceConversion "net.Conn")
  | some conn =>
    match conn.setReadDeadline t with
    | Except.error p => Except.error p
    | Except.ok (err, tlog) =>
      let elog := match err with
        | some e => this.reportErrorEvent "SetReadDeadline()" e
        | none => []
      Except.ok (err, tlog ++ elog)

/-- Definition `LoggedIOProxy.SetWriteDeadline` from the source: as `SetDeadline`
with location `"SetWriteDeadline()"`. -/
def LoggedIOProxy.SetWriteDeadline (this : LoggedIOProxy Λ) (t : Time) :
    Except GoPanic (Option GoError × List Λ) :=
  match this.proxiedObject.conn? with
  | none => Except.error (GoPanic.interfaceConversion "net.Conn")
  | some conn =>
    match conn.setWriteDeadline t with
    | Except.error p => Except.error p
    | Except.ok (err, tlog) =>
      let elog := match err with
        | some e => this.reportErrorEvent "SetWriteDeadline()" e
        | none => []
      Except.ok (err, tlog ++ elog)

/-- A proxy viewed as the target of another proxy: in Go, the proxy
itself implements `io.Reader`, `io.Writer`, `io.Closer` and `net.Conn`,
so the outer proxy's interface conversions always succeed and the inner
proxy's methods run (their own conversion may still panic, which
propagates). -/
def LoggedIOProxy.asTarget (p : LoggedIOProxy Λ) : Target Λ :=
  { read? := some p.Read
    write? := some p.Write
    close? := some (fun _ => p.Close)
    conn? := some
      { localAddr := fun _ => p.LocalAddr
        remoteAddr := fun _ => p.RemoteAddr
        setDeadline := p.SetDeadline
        setReadDeadline := p.SetReadDeadline
        setWriteDeadline := p.SetWriteDeadline } }

namespace V1

/-- The proxy struct from `src/loggedio.go` (the second source version
of the core proxy); its fields are identical to the `part_001`
version. -/
structure LoggedIOProxy (Λ : Type) where
  reportReadEvent : List Nat → List Λ
  reportWriteEvent : List Nat → List Λ
  reportCloseEvent : Unit → List Λ
  reportErrorEvent : String → GoError → List Λ
  proxiedObject : Target Λ
  location : String

/-- Definition `LoggedIOProxy.Read` from `src/loggedio.go`. -/
def LoggedIOProxy.Read (this : LoggedIOProxy Λ) (b : List Nat) :
    Except GoPanic ((Nat × List Nat × Option GoError) × List Λ) :=
  match this.proxiedObject.read? with
  | none => Except.error (GoPanic.interfaceConversion "io.Reader")
  | some reader =>
    match reader b with
    | Except.error p => Except.error p
    | Except.ok ((n, b2, err), tlog) =>
      let rlog := if n > 0 then this.reportReadEvent (b2.take n) else []
      let elog := match err with
        | some e => this.reportErrorEvent "Read()" e
        | none => []
      Except.ok ((n, b2, err), tlog ++ rlog ++ elog)

/-- Definition `LoggedIOProxy.Write` from `src/loggedio.go`. -/
def LoggedIOProxy.Write (this : LoggedIOProxy Λ) (b : List Nat) :
    Except GoPanic ((Nat × Option GoError) × List Λ) :=
  match this.proxiedObject.write? with
  | none => Except.error (GoPanic.interfaceConversion "io.Writer")
  | some writer =>
    match writer b with
    | Except.error p => Except.error p
    | Except.ok ((n, err), tlog) =>
      let wlog := if n > 0 then this.reportWriteEvent (b.take n) else []
      let elog := match err with
        | some e => this.reportErrorEvent "Write()" e
        | none => []
      Except.ok ((n, err), tlog ++ wlog ++ elog)

/-- Definition `LoggedIOProxy.Close` from `src/loggedio.go`. -/
def LoggedIOProxy.Close (this : LoggedIOProxy Λ) :
    Except GoPanic (Option GoError × List Λ) :=
  match this.proxiedObject.close? with
  | none => Except.error (GoPanic.interfaceConversion "io.Closer")
  | some closer =>
    match closer () with
    | Except.error p => Except.error p
    | Except.ok (err, tlog) =>
      let clog := this.reportCloseEvent ()
      let elog := match err with
        | some e => this.reportErrorEvent "Close()" e
        | none => []
      Except.ok (err, tlog ++ clog ++ elog)

/-- Definition `LoggedIOProxy.LocalAddr` from `src/loggedio.go`. -/
def LoggedIOProxy.LocalAddr (this : LoggedIOProxy Λ) :
    Except GoPanic (Addr × List Λ) :=
  match this.proxiedObject.conn? with
  | none => Except.error (GoPanic.interfaceConversion "net.Conn")
  | some conn => conn.localAddr ()

/-- Definition `LoggedIOProxy.RemoteAddr` from `src/loggedio.go`. -/
def LoggedIOProxy.RemoteAddr (this : LoggedIOProxy Λ) :
    Except GoPanic (Addr × List Λ) :=
  match this.proxiedObject.conn? with
  | none => Except.error (GoPanic.interfaceConversion "net.Conn")
  | some conn => conn.remoteAddr ()

/-- Definition `LoggedIOProxy.SetDeadline` from `src/loggedio.go`. -/
def LoggedIOProxy.SetDeadline (this : LoggedIOProxy Λ) (t : Time) :
    Except GoPanic (Option GoError × List Λ) :=
  match this.proxiedObject.conn? with
  | none => Except.error (GoPanic.interfaceConversion "net.Conn")
  | some conn =>
    match conn.setDeadline t with
    | Except.error p => Except.error p
    | Except.ok (err, tlog) =>
      let elog := match err with
        | some e => this.reportErrorEvent "SetDeadline()" e
        | none => []
      Except.ok (err, tlog ++ elog)

/-- Definition `LoggedIOProxy.SetReadDeadline` from `src/loggedio.go`. -/
def LoggedIOProxy.SetReadDeadline (this : LoggedIOProxy Λ) (t : Time) :
    Except GoPanic (Option GoError × List Λ) :=
  match this.proxiedObject.conn? with
  | none => Except.error (GoPanic.interfaceConversion "net.Conn")
  | some conn =>
    match conn.setReadDeadline t with
    | Except.error p => Except.error p
    | Except.ok (err, tlog) =>
      let elog := match err with
        | some e => this.reportErrorEvent "SetReadDeadline()" e
        | none => []
      Except.ok (err, tlog ++ elog)

/-- Definition `LoggedIOProxy.SetWriteDeadline` from `src/loggedio.go`. -/
def LoggedIOProxy.SetWriteDeadline (this : LoggedIOProxy Λ) (t : Time) :
    Except GoPanic (Option GoError × List Λ) :=
  match this.proxiedObject.conn? with
  | none => Except.error (GoPanic.interfaceConversion "net.Conn")
  | some conn =>
    match conn.setWriteDeadline t with
    | Except.error p => Except.error p
    | Except.ok (err, tlog) =>
      let elog := match err with
        | some e => this.reportErrorEvent "SetWriteDeadline()" e
        | none => []
      Except.ok (err, tlog ++ elog)

end V1

/-- The field-for-field correspondence between the `src/loggedio.go`
proxy struct and the `src/unnamed/part_001` proxy struct (they have the
same fields). -/
def ofV1 (p : V1.LoggedIOProxy Λ) : LoggedIOProxy Λ :=
  { reportReadEvent := p.reportReadEvent
    reportWriteEvent := p.reportWriteEvent
    reportCloseEvent := p.reportCloseEvent
    reportErrorEvent := p.reportErrorEvent
    proxiedObject := p.proxiedObject
    location := p.location }

/-- Definition `hexDigits` from the source: the sixteen lowercase hexadecimal
digit characters. -/
def hexDigits : List Char :=
  "0123456789abcdef".data

/-- The loop of `toHex` from the source, rendered as list recursion:
for each byte `ch` the loop writes `hexDigits[ch>>4]` and
`hexDigits[ch&15]`, then a space separator exactly when the byte is not
the last one (`i < len(b)-1` in the source, i.e. the rest of the list is
non-empty).  The `strings.Builder` contents are the returned
`List Char`. -/
def toHexChars : List Nat → List Char
  | [] => []
  | ch :: rest =>
    hexDigits.getD (ch >>> 4) ' ' :: hexDigits.getD (ch &&& 15) ' ' ::
      (match rest with
       | [] => []
       | _ :: _ => ' ' :: toHexChars rest)

/-- Definition `toHex` from the source: hex-format a byte sequence, two lowercase
digits per byte, bytes separated by single spaces. -/
def toHex (b : List Nat) : String :=
  String.mk (toHexChars b)

/-- The two hexadecimal digit characters of one byte, computed as in the
source loop body (`hexDigits[ch>>4]`, `hexDigits[ch&15]`). -/
def hexPair (ch : Nat) : List Char :=
  [hexDigits.getD (ch >>> 4) ' ', hexDigits.getD (ch &&& 15) ' ']

/-- The spec's description of the separator layout: the chunks joined by
single spaces, with no leading or trailing separator (empty output for
the empty list). -/
def sepJoin : List (List Char) → List Char
  | [] => []
  | [x] => x
  | x :: y :: xs => x ++ [' '] ++ sepJoin (y :: xs)

theorem toHexChars_eq_sepJoin (b : List Nat) :
    toHexChars b = sepJoin (b.map hexPair) := by
  induction b with
  | nil => rfl
  | cons ch rest ih =>
    cases rest with
    | nil => rfl
    | cons y ys =>
      simp only [toHexChars, List.map_cons, sepJoin, hexPair] at ih ⊢
      rw [ih]
      rfl

theorem toHex_eq_sepJoin (b : List Nat) :
    toHex b = String.mk (sepJoin (b.map hexPair)) := by
  unfold toHex
  rw [toHexChars_eq_sepJoin]

/-- Go's `string(b)` conversion of a byte slice (for the ASCII payloads
the tests use, byte values are code points). -/
def stringOfBytes (b : List Nat) : String :=
  String.mk (b.map Char.ofNat)

/-- Modelled from the spec: the verb substitution of Go's `fmt.Sprintf`
restricted to `%v` verbs, which is all the constructors' documented
templates use ("a single %v for the payload contents"; for errors "a %v
for the location ... and a second %v for the error payload, in that
order").  `fmt` is Go standard library code, not part of this
repository.  Each `%v` consumes the next argument; leftover verbs are
kept literally. -/
def substVerbs : List Char → List String → List Char
  | '%' :: 'v' :: rest, arg :: args => arg.data ++ substVerbs rest args
  | '%' :: 'v' :: rest, [] => '%' :: 'v' :: substVerbs rest []
  | c :: rest, args => c :: substVerbs rest args
  | [], _ => []

/-- Go's `fmt.Sprintf(format, arg)` for a one-verb template. -/
def sprintf1 (format arg : String) : String :=
  String.mk (substVerbs format.data [arg])

/-- Go's `fmt.Sprintf(format, a1, a2)` for a two-verb template. -/
def sprintf2 (format a1 a2 : String) : String :=
  String.mk (substVerbs format.data [a1, a2])

/-- Definition `byteFunc` from the source: the byte-event callback, replaced by a
no-op when the format string is empty. -/
def byteFunc (format : String) (function : List Nat → List Λ) : List Nat → List Λ :=
  if format = "" then fun _ => [] else function

/-- Definition `errFunc` from the source: the error-event callback, replaced by a
no-op when the format string is empty. -/
def errFunc (format : String) (function : String → GoError → List Λ) :
    String → GoError → List Λ :=
  if format = "" then fun _ _ => [] else function

/-- Definition `closeFunc` from the source: the close-event callback, replaced by a
no-op when the message string is empty. -/
def closeFunc (msg : String) (function : Unit → List Λ) : Unit → List Λ :=
  if msg = "" then fun _ => [] else function

/-- Definition `StringToLog` from `src/unnamed/part_001`: string-mode reporting to
the go log.  `log.Printf(fmt, arg)` is modelled as the emission of the
formatted message.  The read callback is gated on `readFmt` and the
write callback on `writeFmt`, as in the source. -/
def StringToLog (proxiedObject : Target String)
    (readFmt writeFmt errorFmt closeMsg : String) : LoggedIOProxy String :=
  Generic proxiedObject
    (byteFunc readFmt (fun b => [sprintf1 readFmt (stringOfBytes b)]))
    (byteFunc writeFmt (fun b => [sprintf1 writeFmt (stringOfBytes b)]))
    (errFunc errorFmt (fun location err => [sprintf2 errorFmt location err]))
    (closeFunc closeMsg (fun _ => [sprintf1 "%v" closeMsg]))

/-- Definition `HexToLog` from `src/unnamed/part_001`: hex-mode reporting to the go
log.  Faithful to the source, the WRITE callback is gated on `readFmt`
(`byteFunc(readFmt, ...)` on the write line of the source) although its
message is formatted with `writeFmt`. -/
def HexToLog (proxiedObject : Target String)
    (readFmt writeFmt errorFmt closeMsg : String) : LoggedIOProxy String :=
  Generic proxiedObject
    (byteFunc readFmt (fun b => [sprintf1 readFmt (toHex b)]))
    (byteFunc readFmt (fun b => [sprintf1 writeFmt (toHex b)]))
    (errFunc errorFmt (fun location err => [sprintf2 errorFmt location err]))
    (closeFunc closeMsg (fun _ => [sprintf1 "%v" closeMsg]))

/-- Definition `StringToWriter` from `src/unnamed/part_001`: string-mode reporting
to a writer.  A writer is modelled as the emissions produced by writing
a string to it (`writer : String → List Λ`); `fmt.Fprintf(writer, f, a)`
emits `writer (sprintf1 f a)`.  Faithful to the source, the WRITE
callback is gated on `readFmt` (`byteFunc(readFmt, ...)` on the write
line of the source) although its message is formatted with
`writeFmt`. -/
def StringToWriter (proxiedObject : Target Λ) (writer : String → List Λ)
    (readFmt writeFmt errorFmt closeMsg : String) : LoggedIOProxy Λ :=
  Generic proxiedObject
    (byteFunc readFmt (fun b => writer (sprintf1 readFmt (stringOfBytes b))))
    (byteFunc readFmt (fun b => writer (sprintf1 writeFmt (stringOfBytes b))))
    (errFunc errorFmt (fun location err => writer (sprintf2 errorFmt location err)))
    (closeFunc closeMsg (fun _ => writer closeMsg))

/-- Definition `HexToWriter` from `src/unnamed/part_001`: hex-mode reporting to a
writer.  As in the source, the WRITE callback is gated on `readFmt`
(`byteFunc(readFmt, ...)` on the write line of the source). -/
def HexToWriter (proxiedObject : Target Λ) (writer : String → List Λ)
    (readFmt writeFmt errorFmt closeMsg : String) : LoggedIOProxy Λ :=
  Generic proxiedObject
    (byteFunc readFmt (fun b => writer (sprintf1 readFmt (toHex b))))
    (byteFunc readFmt (fun b => writer (sprintf1 writeFmt (toHex b))))
    (errFunc errorFmt (fun location err => writer (sprintf2 errorFmt location err)))
    (closeFunc closeMsg (fun _ => writer closeMsg))

/-- Observable callback invocations, used to state the generic-proxy
claims: instantiating the four callbacks with single-event recorders
makes the emission trace record exactly which callbacks ran, with which
arguments, in which order. -/
inductive Event where
  | readEvt (b : List Nat)
  | writeEvt (b : List Nat)
  | closeEvt
  | errorEvt (location : String) (err : GoError)
deriving DecidableEq

/-- Recorder callback for read events. -/
def recRead : List Nat → List Event := fun b => [Event.readEvt b]

/-- Recorder callback for write events. -/
def recWrite : List Nat → List Event := fun b => [Event.writeEvt b]

/-- Recorder callback for close events. -/
def recClose : Unit → List Event := fun _ => [Event.closeEvt]

/-- Recorder callback for error events. -/
def recError : String → GoError → List Event := fun location err => [Event.errorEvt location err]

/-- A proxy with recorder callbacks over the given target. -/
def recorder (t : Target Event) : LoggedIOProxy Event :=
  Generic t recRead recWrite recError recClose

/-- A reader target that reads one byte and then fails: used to
exercise the partial-read-with-error path concretely. -/
def shortReader : Target Event :=
  { read? := some (fun buf => Except.ok ((1, buf, some "ERROR!"), []))
    write? := none
    close? := none
    conn? := none }

/-- A writer target that accepts two bytes and then fails: used to
exercise the partial-write-with-error path concretely. -/
def shortWriter : Target Event :=
  { read? := none
    write? := some (fun _ => Except.ok ((2, some "ERROR!"), []))
    close? := none
    conn? := none }

/-- A closer target whose close fails: used to exercise the
close-then-error path concretely. -/
def failingCloser : Target Event :=
  { read? := none
    write? := none
    close? := some (fun _ => Except.ok ((some "ERROR!"), []))
    conn? := none }

/-- A connection target whose deadline operations fail or succeed as
marked: used to exercise the deadline error paths concretely. -/
def connTarget : Target Event :=
  { read? := none
    write? := none
    close? := none
    conn? := some
      { localAddr := fun _ => Except.ok ("local", [])
        remoteAddr := fun _ => Except.ok ("remote", [])
        setDeadline := fun _ => Except.ok (some "ERROR!", [])
        setReadDeadline := fun _ => Except.ok (none, [])
        setWriteDeadline := fun _ => Except.ok (some "ERROR!", []) } }

/-- Claim C1: `Read(buffer)` on a proxy whose target implements the
reader capability forwards the caller's buffer to the target's read; if
`bytesRead > 0` it invokes `onRead` with exactly the sub-slice
`buffer[0:bytesRead]` (a slice of length `bytesRead`: never zero-length,
and never the full buffer when `bytesRead < len(buffer)`); if an error
was returned it invokes `onError` with location `"Read()"` strictly
after the `onRead` invocation (the trace lists the invocations in
order); and it returns the target's `bytesRead` and error unchanged.
The four callbacks are instantiated with single-event recorders so the
emission trace records exactly the callback invocations. -/
theorem read_reports_subslice_then_error (t : Target Event)
    (rd : List Nat → Except GoPanic ((Nat × List Nat × Option GoError) × List Event))
    (ht : t.read? = some rd)
    (buf b2 : List Nat) (n : Nat) (err : Option GoError)
    (h : rd buf = Except.ok ((n, b2, err), []))
    (hn : n ≤ b2.length) :
    (recorder t).Read buf =
      Except.ok ((n, b2, err),
        (if 0 < n then [Event.readEvt (b2.take n)] else []) ++
          (match err with
            | some e => [Event.errorEvt "Read()" e]
            | none => [])) ∧
    (0 < n → (b2.take n).length = n ∧ b2.take n ≠ []) ∧
    (n < b2.length → b2.take n ≠ b2) := by
  refine ⟨?_, ?_, ?_⟩
  · simp only [recorder, Generic, LoggedIOProxy.Read, ht, h, recRead, recError,
      List.nil_append]
    cases err <;> rfl
  · intro hn0
    have hlen : (b2.take n).length = n := by
      simp [List.length_take]
      omega
    refine ⟨hlen, ?_⟩
    intro hnil
    rw [hnil] at hlen
    simp at hlen
    omega
  · intro hlt heq
    have := congrArg List.length heq
    simp [List.length_take] at this
    omega

/-- Witness for C1 at a concrete partial read with error: one byte of
the two-byte buffer is read, the read report precedes the error
report. -/
theorem read_reports_subslice_then_error_witness :
    (recorder shortReader).Read [7, 8] =
      Except.ok ((1, [7, 8], some "ERROR!"),
        [Event.readEvt [7], Event.errorEvt "Read()" "ERROR!"]) ∧
    ([7, 8].take 1 ≠ [7, 8]) := by
  have h := read_reports_subslice_then_error shortReader _ rfl
    [7, 8] [7, 8] 1 (some "ERROR!") rfl (by decide)
  exact ⟨h.1, h.2.2 (by decide)⟩

/-- Claim C2: `Write(data)` on a proxy whose target implements the
writer capability forwards `data` to the target's write; if
`bytesWritten > 0` it invokes `onWrite` with exactly the prefix
`data[0:bytesWritten]` (of length `bytesWritten`, shorter than `data`
when the write is partial); if an error was returned it invokes
`onError` with location `"Write()"` strictly after the `onWrite`
invocation; and it returns the target's `bytesWritten` and error
unchanged. -/
theorem write_reports_prefix_then_error (t : Target Event)
    (wr : List Nat → Except GoPanic ((Nat × Option GoError) × List Event))
    (ht : t.write? = some wr)
    (data : List Nat) (n : Nat) (err : Option GoError)
    (h : wr data = Except.ok ((n, err), []))
    (hn : n ≤ data.length) :
    (recorder t).Write data =
      Except.ok ((n, err),
        (if 0 < n then [Event.writeEvt (data.take n)] else []) ++
          (match err with
            | some e => [Event.errorEvt "Write()" e]
            | none => [])) ∧
    (0 < n → (data.take n).length = n) ∧
    (n < data.length → data.take n ≠ data) := by
  refine ⟨?_, ?_, ?_⟩
  · simp only [recorder, Generic, LoggedIOProxy.Write, ht, h, recWrite, recError,
      List.nil_append]
    cases err <;> rfl
  · intro hn0
    simp [List.length_take]
    omega
  · intro hlt heq
    have := congrArg List.length heq
    simp [List.length_take] at this
    omega

/-- Witness for C2 at a concrete partial write with error: two of three
bytes are accepted, the write report precedes the error report. -/
theorem write_reports_prefix_then_error_witness :
    (recorder shortWriter).Write [1, 2, 3] =
      Except.ok ((2, some "ERROR!"),
        [Event.writeEvt [1, 2], Event.errorEvt "Write()" "ERROR!"]) ∧
    ([1, 2, 3].take 2 ≠ [1, 2, 3]) := by
  have h := write_reports_prefix_then_error shortWriter _ rfl
    [1, 2, 3] 2 (some "ERROR!") rfl (by decide)
  exact ⟨h.1, h.2.2 (by decide)⟩

/-- Claim C3: `Close()` on a proxy whose target implements the closer
capability forwards to the target's close, invokes `onClose` exactly
once unconditionally (whether or not an error was returned), invokes
`onError` with location `"Close()"` strictly after `onClose` when an
error was returned, and returns the target's error unchanged. -/
theorem close_reports_unconditionally (t : Target Event)
    (cl : Unit → Except GoPanic (Option GoError × List Event))
    (ht : t.close? = some cl)
    (err : Option GoError)
    (h : cl () = Except.ok (err, [])) :
    (recorder t).Close =
      Except.ok (err,
        Event.closeEvt ::
          (match err with
            | some e => [Event.errorEvt "Close()" e]
            | none => [])) ∧
    (Event.closeEvt ::
        (match err with
          | some e => [Event.errorEvt "Close()" e]
          | none => ([] : List Event))).count Event.closeEvt = 1 := by
  refine ⟨?_, ?_⟩
  · simp only [recorder, Generic, LoggedIOProxy.Close, ht, h, recClose, recError]
    cases err <;> rfl
  · cases err <;> simp [List.count_cons]

/-- Witness for C3 at a concrete failing close: the close report happens
and precedes the error report. -/
theorem close_reports_unconditionally_witness :
    (recorder failingCloser).Close =
      Except.ok (some "ERROR!",
        [Event.closeEvt, Event.errorEvt "Close()" "ERROR!"]) := by
  have h := close_reports_unconditionally failingCloser _ rfl (some "ERROR!") rfl
  exact h.1

/-- Claim C9: each deadline operation on a proxy whose target implements
the connection capability forwards to the target; `onError` is invoked
with the matching location tag exactly when an error is returned (the
trace is empty otherwise); the traces contain only error events, so
`onRead`, `onWrite` and `onClose` are never invoked; and the target's
error is returned unchanged. -/
theorem deadline_ops_report_error_only (t : Target Event) (c : ConnOps Event)
    (ht : t.conn? = some c) (tm : Time)
    (e1 e2 e3 : Option GoError)
    (h1 : c.setDeadline tm = Except.ok (e1, []))
    (h2 : c.setReadDeadline tm = Except.ok (e2, []))
    (h3 : c.setWriteDeadline tm = Except.ok (e3, [])) :
    ((recorder t).SetDeadline tm =
      Except.ok (e1,
        (match e1 with
          | some e => [Event.errorEvt "SetDeadline()" e]
          | none => []))) ∧
    ((recorder t).SetReadDeadline tm =
      Except.ok (e2,
        (match e2 with
          | some e => [Event.errorEvt "SetReadDeadline()" e]
          | none => []))) ∧
    ((recorder t).SetWriteDeadline tm =
      Except.ok (e3,
        (match e3 with
          | some e => [Event.errorEvt "SetWriteDeadline()" e]
          | none => []))) ∧
    (∀ eo : Option GoError, ∀ loc : String,
      ∀ ev ∈ (match eo with
        | some e => [Event.errorEvt loc e]
        | none => ([] : List Event)),
      ∃ l er, ev = Event.errorEvt l er) := by
  refine ⟨?_, ?_, ?_, ?_⟩
  · simp only [recorder, Generic, LoggedIOProxy.SetDeadline, ht, h1, recError]
    cases e1 <;> rfl
  · simp only [recorder, Generic, LoggedIOProxy.SetReadDeadline, ht, h2, recError]
    cases e2 <;> rfl
  · simp only [recorder, Generic, LoggedIOProxy.SetWriteDeadline, ht, h3, recError]
    cases e3 <;> rfl
  · intro eo loc ev hev
    cases eo with
    | none => simp at hev
    | some e =>
      simp at hev
      exact ⟨loc, e, hev⟩

/-- Witness for C9 at a concrete connection target: a failing
`SetDeadline` reports the error with its tag, a succeeding
`SetReadDeadline` reports nothing, a failing `SetWriteDeadline` reports
with its own tag. -/
theorem deadline_ops_report_error_only_witness :
    (recorder connTarget).SetDeadline 0 =
      Except.ok (some "ERROR!", [Event.errorEvt "SetDeadline()" "ERROR!"]) ∧
    (recorder connTarget).SetReadDeadline 0 = Except.ok (none, []) ∧
    (recorder connTarget).SetWriteDeadline 0 =
      Except.ok (some "ERROR!", [Event.errorEvt "SetWriteDeadline()" "ERROR!"]) := by
  have h := deadline_ops_report_error_only connTarget _ rfl 0
    (some "ERROR!") none (some "ERROR!") rfl rfl rfl
  exact ⟨h.1, h.2.1, h.2.2.1⟩

/-- A reader-only target: used to show that a proxy over it panics on
every non-read operation while `Read` still succeeds. -/
def readerOnly : Target Event :=
  { read? := some (fun buf => Except.ok ((buf.length, buf, none), []))
    write? := none
    close? := none
    conn? := none }

/-- Claim C4: construction via `Generic` never inspects the target's
capabilities (it succeeds for any target, storing it unchanged); each of
the eight operations checks, at call time, exactly the capability it
needs, and fails with a panic-class failure (`Except.error`, distinct
from a returned I/O error) when the target lacks it; operations whose
capability the target does support succeed (return `Except.ok`) with the
target's own result. -/
theorem capability_checked_per_call (Λ : Type) (t : Target Λ)
    (frd fwr : List Nat → List Λ) (ferr : String → GoError → List Λ)
    (fcl : Unit → List Λ) (b data : List Nat) (tm : Time) :
    ((Generic t frd fwr ferr fcl).proxiedObject = t) ∧
    (t.read? = none →
      (Generic t frd fwr ferr fcl).Read b =
        Except.error (GoPanic.interfaceConversion "io.Reader")) ∧
    (t.write? = none →
      (Generic t frd fwr ferr fcl).Write data =
        Except.error (GoPanic.interfaceConversion "io.Writer")) ∧
    (t.close? = none →
      (Generic t frd fwr ferr fcl).Close =
        Except.error (GoPanic.interfaceConversion "io.Closer")) ∧
    (t.conn? = none →
      (Generic t frd fwr ferr fcl).LocalAddr =
        Except.error (GoPanic.interfaceConversion "net.Conn") ∧
      (Generic t frd fwr ferr fcl).RemoteAddr =
        Except.error (GoPanic.interfaceConversion "net.Conn") ∧
      (Generic t frd fwr ferr fcl).SetDeadline tm =
        Except.error (GoPanic.interfaceConversion "net.Conn") ∧
      (Generic t frd fwr ferr fcl).SetReadDeadline tm =
        Except.error (GoPanic.interfaceConversion "net.Conn") ∧
      (Generic t frd fwr ferr fcl).SetWriteDeadline tm =
        Except.error (GoPanic.interfaceConversion "net.Conn")) ∧
    (∀ rd r, t.read? = some rd → rd b = Except.ok r →
      ∃ res, (Generic t frd fwr ferr fcl).Read b = Except.ok res ∧ res.1 = r.1) ∧
    (∀ wr r, t.write? = some wr → wr data = Except.ok r →
      ∃ res, (Generic t frd fwr ferr fcl).Write data = Except.ok res ∧ res.1 = r.1) ∧
    (∀ cl r, t.close? = some cl → cl () = Except.ok r →
      ∃ res, (Generic t frd fwr ferr fcl).Close = Except.ok res ∧ res.1 = r.1) ∧
    (∀ c : ConnOps Λ, t.conn? = some c →
      (Generic t frd fwr ferr fcl).LocalAddr = c.localAddr () ∧
      (Generic t frd fwr ferr fcl).RemoteAddr = c.remoteAddr () ∧
      (∀ r, c.setDeadline tm = Except.ok r →
        ∃ res, (Generic t frd fwr ferr fcl).SetDeadline tm = Except.ok res ∧
          res.1 = r.1) ∧
      (∀ r, c.setReadDeadline tm = Except.ok r →
        ∃ res, (Generic t frd fwr ferr fcl).SetReadDeadline tm = Except.ok res ∧
          res.1 = r.1) ∧
      (∀ r, c.setWriteDeadline tm = Except.ok r →
        ∃ res, (Generic t frd fwr ferr fcl).SetWriteDeadline tm = Except.ok res ∧
          res.1 = r.1)) := by
  refine ⟨rfl, ?_, ?_, ?_, ?_, ?_, ?_, ?_, ?_⟩
  · intro h0
    simp [LoggedIOProxy.Read, Generic, h0]
  · intro h0
    simp [LoggedIOProxy.Write, Generic, h0]
  · intro h0
    simp [LoggedIOProxy.Close, Generic, h0]
  · intro h0
    refine ⟨?_, ?_, ?_, ?_, ?_⟩ <;>
      simp [LoggedIOProxy.LocalAddr, LoggedIOProxy.RemoteAddr,
        LoggedIOProxy.SetDeadline, LoggedIOProxy.SetReadDeadline,
        LoggedIOProxy.SetWriteDeadline, Generic, h0]
  · intro rd r hrd hok
    obtain ⟨⟨n, b2, err⟩, tlog⟩ := r
    refine ⟨((n, b2, err),
      tlog ++ (if 0 < n then frd (b2.take n) else []) ++
        (match err with
          | some e => ferr "Read()" e
          | none => [])), ?_, rfl⟩
    simp only [LoggedIOProxy.Read, Generic, hrd, hok]
    cases err <;> rfl
  · intro wr r hwr hok
    obtain ⟨⟨n, err⟩, tlog⟩ := r
    refine ⟨((n, err),
      tlog ++ (if 0 < n then fwr (data.take n) else []) ++
        (match err with
          | some e => ferr "Write()" e
          | none => [])), ?_, rfl⟩
    simp only [LoggedIOProxy.Write, Generic, hwr, hok]
    cases err <;> rfl
  · intro cl r hcl hok
    obtain ⟨err, tlog⟩ := r
    refine ⟨(err,
      tlog ++ fcl () ++
        (match err with
          | some e => ferr "Close()" e
          | none => [])), ?_, rfl⟩
    simp only [LoggedIOProxy.Close, Generic, hcl, hok]
    cases err <;> rfl
  · intro c hc
    refine ⟨?_, ?_, ?_, ?_, ?_⟩
    · simp [LoggedIOProxy.LocalAddr, Generic, hc]
    · simp [LoggedIOProxy.RemoteAddr, Generic, hc]
    · intro r hok
      obtain ⟨err, tlog⟩ := r
      refine ⟨(err,
        tlog ++ (match err with
          | some e => ferr "SetDeadline()" e
          | none => [])), ?_, rfl⟩
      simp only [LoggedIOProxy.SetDeadline, Generic, hc, hok]
      cases err <;> rfl
    · intro r hok
      obtain ⟨err, tlog⟩ := r
      refine ⟨(err,
        tlog ++ (match err with
          | some e => ferr "SetReadDeadline()" e
          | none => [])), ?_, rfl⟩
      simp only [LoggedIOProxy.SetReadDeadline, Generic, hc, hok]
      cases err <;> rfl
    · intro r hok
      obtain ⟨err, tlog⟩ := r
      refine ⟨(err,
        tlog ++ (match err with
          | some e => ferr "SetWriteDeadline()" e
          | none => [])), ?_, rfl⟩
      simp only [LoggedIOProxy.SetWriteDeadline, Generic, hc, hok]
      cases err <;> rfl

/-- Witness for C4 at a concrete reader-only target: construction
succeeds, the unsupported `Write`, `Close` and `LocalAddr` panic with
the interface-conversion failure, and the supported `Read` still
succeeds with the target's result. -/
theorem capability_checked_per_call_witness :
    ((recorder readerOnly).proxiedObject = readerOnly) ∧
    (recorder readerOnly).Write [1] =
      Except.error (GoPanic.interfaceConversion "io.Writer") ∧
    (recorder readerOnly).Close =
      Except.error (GoPanic.interfaceConversion "io.Closer") ∧
    (recorder readerOnly).LocalAddr =
      Except.error (GoPanic.interfaceConversion "net.Conn") ∧
    ∃ res, (recorder readerOnly).Read [5] = Except.ok res ∧
      res.1 = (1, [5], none) := by
  have h := capability_checked_per_call Event readerOnly
    recRead recWrite recError recClose [5] [1] 0
  exact ⟨h.1, h.2.2.1 rfl, h.2.2.2.1 rfl, (h.2.2.2.2.1 rfl).1,
    h.2.2.2.2.2.1 _ ((1, [5], none), []) rfl rfl⟩

/-- Claim C10: the `src/loggedio.go` version and the
`src/unnamed/part_001` version of the proxy are behaviorally equivalent:
for every target, every set of callbacks and every input, each of the
eight operations returns the same result — Go return values, panic
behavior, and the full ordered trace of callback invocations alike. -/
theorem v1_v2_equivalent (Λ : Type) (p : V1.LoggedIOProxy Λ)
    (b data : List Nat) (tm : Time) :
    p.Read b = (ofV1 p).Read b ∧
    p.Write data = (ofV1 p).Write data ∧
    p.Close = (ofV1 p).Close ∧
    p.LocalAddr = (ofV1 p).LocalAddr ∧
    p.RemoteAddr = (ofV1 p).RemoteAddr ∧
    p.SetDeadline tm = (ofV1 p).SetDeadline tm ∧
    p.SetReadDeadline tm = (ofV1 p).SetReadDeadline tm ∧
    p.SetWriteDeadline tm = (ofV1 p).SetWriteDeadline tm := by
  exact ⟨rfl, rfl, rfl, rfl, rfl, rfl, rfl, rfl⟩

/-- A buffer-like target (as `bytes.Buffer` in the README example): its
write accepts all bytes and never fails, with no emissions of its
own. -/
def bufTarget : Target String :=
  { read? := none
    write? := some (fun data => Except.ok ((data.length, none), []))
    close? := none
    conn? := none }

/-- A plain writer sink (as `os.Stdout` in the README example): writing
a string emits exactly that string. -/
def stdoutWriter : String → List String := fun s => [s]

/-- Claim C5 evaluation (code_bug): `StringToWriter` built with an EMPTY
read template and a NON-EMPTY write template `"W [%v]"` performs a
successful 4-byte write of "test" and emits NOTHING — the write channel
was silenced by the empty read template, because the source installs the
write callback through `byteFunc(readFmt, ...)`.  The constructor's own
documentation ("If any string param is empty, that particular reporting
functionality will be disabled") and the claim require the emission
`"W [test]"` here. -/
theorem stringToWriter_write_gated_on_empty_readFmt :
    (StringToWriter bufTarget stdoutWriter "" "W [%v]" "E [%v: %v]" "C").Write
        [116, 101, 115, 116] =
      Except.ok ((4, none), []) ∧
    (StringToWriter bufTarget stdoutWriter "R [%v]" "W [%v]" "E [%v: %v]" "C").Write
        [116, 101, 115, 116] =
      Except.ok ((4, none), ["W [test]"]) := by
  exact ⟨rfl, rfl⟩

/-- The string-mode proxy of the README's chaining example, wrapping the
buffer target directly (the inner proxy). -/
def innerString : LoggedIOProxy String :=
  StringToWriter bufTarget stdoutWriter "RS [%v]" "WS [%v]" "E [%v: %v]" "C"

/-- The hex-mode proxy of the README's chaining example, wrapping the
string-mode proxy (the outer proxy). -/
def outerHex : LoggedIOProxy String :=
  HexToWriter innerString.asTarget stdoutWriter "RH [%v]" "WH [%v]" "" ""

/-- Counterexample to claim C6 as stated: a single write of "Testing"
through the outer hex proxy produces exactly one report from each proxy,
but in the order inner first ("WS [Testing]" from the inner string
proxy, then "WH [...]" from the outer hex proxy) — NOT the claimed
outer-first order. -/
theorem chain_order_counterexample :
    (outerHex.Write [84, 101, 115, 116, 105, 110, 103] =
      Except.ok ((7, none), ["WS [Testing]", "WH [54 65 73 74 69 6e 67]"])) ∧
    (["WS [Testing]", "WH [54 65 73 74 69 6e 67]"] ≠
      ["WH [54 65 73 74 69 6e 67]", "WS [Testing]"]) := by
  exact ⟨rfl, by decide⟩

/-- Claim C6 as amended: when two proxies are chained around one target,
a single successful write on the outer proxy produces exactly one report
from each proxy, in REVERSE nesting order — the inner proxy's report
first, then the outer proxy's report — because each proxy reports only
after its forwarded call has returned. -/
theorem chain_reports_inner_first (Λ : Type) (t : Target Λ)
    (wr : List Nat → Except GoPanic ((Nat × Option GoError) × List Λ))
    (ht : t.write? = some wr)
    (frd1 fwr1 : List Nat → List Λ) (ferr1 : String → GoError → List Λ)
    (fcl1 : Unit → List Λ)
    (frd2 fwr2 : List Nat → List Λ) (ferr2 : String → GoError → List Λ)
    (fcl2 : Unit → List Λ)
    (data : List Nat) (n : Nat)
    (h : wr data = Except.ok ((n, none), []))
    (hn : 0 < n) :
    (Generic (Generic t frd1 fwr1 ferr1 fcl1).asTarget frd2 fwr2 ferr2 fcl2).Write
        data =
      Except.ok ((n, none), fwr1 (data.take n) ++ fwr2 (data.take n)) := by
  simp [LoggedIOProxy.Write, LoggedIOProxy.asTarget, Generic, ht, h, hn]

/-- Witness for the amended C6 at concrete single-emission callbacks:
the trace is ["inner", "outer"]. -/
theorem chain_reports_inner_first_witness :
    (Generic
        (Generic bufTarget (fun _ => []) (fun _ => ["inner"]) (fun _ _ => [])
          (fun _ => [])).asTarget
        (fun _ => []) (fun _ => ["outer"]) (fun _ _ => []) (fun _ => [])).Write
        [1, 2] =
      Except.ok ((2, none), ["inner", "outer"]) := by
  exact chain_reports_inner_first String bufTarget _ rfl
    (fun _ => []) (fun _ => ["inner"]) (fun _ _ => []) (fun _ => [])
    (fun _ => []) (fun _ => ["outer"]) (fun _ _ => []) (fun _ => [])
    [1, 2] 2 rfl (by decide)

/-- Claim C7: in `HexToLog`, the write-event callback is installed as a
no-op exactly when `readFmt` is empty (the source gates it with
`byteFunc(readFmt, ...)`), even though the message it emits is formatted
with `writeFmt`; so write events are reported (a non-empty emission)
if and only if `readFmt` is non-empty. -/
theorem hexToLog_write_gated_on_readFmt (t : Target String)
    (readFmt writeFmt errorFmt closeMsg : String) (b : List Nat) :
    (HexToLog t readFmt writeFmt errorFmt closeMsg).reportWriteEvent b =
      (if readFmt = "" then [] else [sprintf1 writeFmt (toHex b)]) := by
  by_cases h : readFmt = "" <;>
    simp [HexToLog, Generic, byteFunc, h]

set_option maxRecDepth 4096 in
/-- Claim C8: `toHex` maps the bytes 1, 2, 0xAE, 0xF1 to exactly
`"01 02 ae f1"`; in general it emits two per-byte characters drawn from
the lowercase hex digit table, single-space separated with no leading or
trailing separator (`sepJoin`), and the empty string for the empty
sequence. -/
theorem toHex_correct (b : List Nat) (hb : ∀ x ∈ b, x < 256) :
    toHex b = String.mk (sepJoin (b.map hexPair)) ∧
    (∀ x ∈ b, (hexPair x).length = 2 ∧ ∀ c ∈ hexPair x, c ∈ hexDigits) ∧
    toHex [1, 2, 174, 241] = "01 02 ae f1" ∧
    toHex [] = "" := by
  have hdigits : ∀ x, x < 256 →
      (hexPair x).length = 2 ∧ ∀ c ∈ hexPair x, c ∈ hexDigits := by
    decide
  exact ⟨toHex_eq_sepJoin b, fun x hx => hdigits x (hb x hx), rfl, rfl⟩

/-- Witness for C8 at the concrete byte sequence of the claim. -/
theorem toHex_correct_witness :
    toHex [1, 2, 174, 241] = String.mk (sepJoin ([1, 2, 174, 241].map hexPair)) ∧
    toHex [1, 2, 174, 241] = "01 02 ae f1" := by
  have h := toHex_correct [1, 2, 174, 241] (by decide)
  exact ⟨h.1, h.2.2.1⟩

end Loggedio
